import Mathlib

/-!
Shallow embedding of the market-research study simulator
(`src/user_simulator/`): the conversation-simulation control loop
(`simulator.py`), the respondent system-instruction hook (`hooks.py`),
the profile generator's selection logic (`simulate_profiles.py`), and
the profile-reuse branch of `Simulator.__init__`.

The LLM backend (`Runner.run`) is an external collaborator; it is
modelled by oracle functions indexed by a call counter, returning the
`final_output` of the call (`Option` models a `None` output).  Python
lists become Lean lists; dictionaries with known fields become
structures; `random.random()` draws become explicit rational arguments
in `[0, 1)`; `random.choice` becomes an explicit index argument.
-/

/-- One dialogue turn: `{"role": ..., "content": ...}`. -/
structure Turn where
  role : String
  content : String
deriving DecidableEq, Repr

/-- Structured output of the market researcher agent (`agents.py`,
`ResearcherOutput`): `next_question : Optional[str]`, `finished : bool`. -/
structure ResearcherOutput where
  next_question : Option String
  finished : Bool
deriving DecidableEq, Repr

/-- Python truthiness of an `Optional[str]`: `None` and `""` are falsy.
Used because `simulator.py` line 163 tests
`not getattr(researcher_output, "next_question", None)`. -/
def truthyStr : Option String → Bool
  | none => false
  | some s => !(s == "")

namespace Simulator

/-- The synthetic opening turn `{"role": "user", "content": "Hi"}`
(`simulator.py` line 146). -/
def openingTurn : Turn := ⟨"user", "Hi"⟩

/-- `agent_input = dialogue if dialogue else [{"role": "user", "content": "Hi"}]`
(`simulator.py` line 146). -/
def agentInput (dialogue : List Turn) : List Turn :=
  if dialogue.isEmpty then [openingTurn] else dialogue

/-- `user_dialogue = dialogue[-4:] if len(dialogue) > 4 else dialogue`
(`simulator.py` line 171): the respondent agent sees at most the last
4 turns. -/
def user_dialogue_window (dialogue : List Turn) : List Turn :=
  if dialogue.length > 4 then dialogue.drop (dialogue.length - 4) else dialogue

/-- `Simulator._next_block` (`simulator.py` lines 106-110):
`if 0 <= index < len(blocks): return blocks[index]` else `None`.
The Python comparison chain accepts any integer, so the index is `Int`. -/
def next_block {Block : Type} (blocks : List Block) (index : Int) : Option Block :=
  if 0 ≤ index ∧ index < (blocks.length : Int) then blocks[index.toNat]? else none

/-- `Simulator._initial_context` (`simulator.py` lines 95-104) reads
`self.study["discussion_guide"]["blocks"][0]` with no guard: on an empty
blocks list Python raises `IndexError`.  The unguarded subscription is
modelled by `List.getElem?`, with `none` standing for the raised error. -/
def initial_context_block {Block : Type} (blocks : List Block) : Option Block :=
  blocks[0]?

/-- State carried around the `while True` loop of `simulate_conversation`:
the accumulated `dialogue`, the `block_index` counter, the Study Context's
mutable `discussion_block`, plus call counters indexing the backend oracles
(one per `Runner.run` call of each role). -/
structure LoopState (Block : Type) where
  dialogue : List Turn
  block_index : Nat
  discussion_block : Block
  rCalls : Nat
  uCalls : Nat
deriving DecidableEq, Repr

/-- Observable events of one simulated conversation: each researcher
`Runner.run` call (with the block index and active block of the Study
Context at that moment, the dialogue snapshot and the actual input list),
and each respondent `Runner.run` call (with its input list). -/
inductive SimEvent (Block : Type) where
  | researcherCall (block_index : Nat) (block : Block)
      (dialogue : List Turn) (input : List Turn)
  | respondentCall (input : List Turn)
deriving DecidableEq, Repr

/-- Outcome of `simulate_conversation`: normal return of the dialogue,
the `ValueError("No next question from market researcher")` of line 164,
the `IndexError` of the unguarded `blocks[0]` in `_initial_context`,
or exhaustion of the step budget (the Python loop has no cap; fuel only
makes the embedding total). -/
inductive SimOutcome (Block : Type) where
  | ok (dialogue : List Turn)
  | valueError
  | indexError
  | outOfFuel
deriving DecidableEq, Repr

/-- State update of the block-advance branch (`simulator.py` lines
154-161): `block_index += 1`, the next block becomes the Study Context's
`discussion_block`, the dialogue is untouched (NOT reset). -/
def advanceState {Block : Type} (s : LoopState Block) (nb : Block) : LoopState Block :=
  { s with block_index := s.block_index + 1, discussion_block := nb,
           rCalls := s.rCalls + 1 }

/-- The input handed to the respondent agent after the researcher's
question `q` is appended (`simulator.py` lines 167-171): the last-4
window of `dialogue + [assistant q]`. -/
def respondentInput {Block : Type} (s : LoopState Block) (q : String) : List Turn :=
  user_dialogue_window (s.dialogue ++ [⟨"assistant", q⟩])

/-- State update of the question branch (`simulator.py` lines 166-180):
append the researcher turn, run the respondent on the last-4 window,
append the respondent turn (`final_output or ""`). -/
def questionState {Block : Type} (user : Nat → List Turn → Block → Option String)
    (s : LoopState Block) (q : String) : LoopState Block :=
  { s with
      dialogue := (s.dialogue ++ [⟨"assistant", q⟩]) ++
        [⟨"user", (user s.uCalls (respondentInput s q) s.discussion_block).getD ""⟩],
      rCalls := s.rCalls + 1, uCalls := s.uCalls + 1 }

/-- The `while True` loop of `Simulator.simulate_conversation`
(`simulator.py` lines 145-181), one constructor-faithful step per fuel
unit.  `researcher` and `user` are the backend oracles for the two agent
roles; a `none` oracle answer models `final_output` being `None`. -/
def simLoop {Block : Type}
    (researcher : Nat → List Turn → Block → Option ResearcherOutput)
    (user : Nat → List Turn → Block → Option String)
    (blocks : List Block) :
    Nat → LoopState Block → SimOutcome Block × List (SimEvent Block)
  | 0, _ => (SimOutcome.outOfFuel, [])
  | fuel + 1, s =>
    let rEv := SimEvent.researcherCall s.block_index s.discussion_block s.dialogue
      (agentInput s.dialogue)
    match researcher s.rCalls (agentInput s.dialogue) s.discussion_block with
    | some out =>
      if out.finished then
        -- block_index += 1; next_block; break or continue with the new block
        match next_block blocks ((s.block_index + 1 : Nat) : Int) with
        | none => (SimOutcome.ok s.dialogue, [rEv])
        | some nb =>
          let r := simLoop researcher user blocks fuel (advanceState s nb)
          (r.1, rEv :: r.2)
      else if truthyStr out.next_question then
        let q := out.next_question.getD ""
        let r := simLoop researcher user blocks fuel (questionState user s q)
        (r.1, rEv :: SimEvent.respondentCall (respondentInput s q) :: r.2)
      else
        -- finished falsy and next_question falsy: raise ValueError (line 164)
        (SimOutcome.valueError, [rEv])
    | none =>
      -- `not researcher_output` is true: raise ValueError (line 164)
      (SimOutcome.valueError, [rEv])

/-- `Simulator.simulate_conversation` (`simulator.py` lines 138-185):
build the initial context from the first guide block (unguarded `[0]`),
start with an empty dialogue and `block_index = 0`, and run the loop. -/
def simulate_conversation {Block : Type}
    (researcher : Nat → List Turn → Block → Option ResearcherOutput)
    (user : Nat → List Turn → Block → Option String)
    (blocks : List Block) (fuel : Nat) :
    SimOutcome Block × List (SimEvent Block) :=
  match initial_context_block blocks with
  | none => (SimOutcome.indexError, [])
  | some first =>
    simLoop researcher user blocks fuel
      { dialogue := [], block_index := 0, discussion_block := first,
        rCalls := 0, uCalls := 0 }

/-- Metadata block of a persisted conversation
(`Simulator.save_conversation`, `simulator.py` lines 112-125). -/
structure ConversationMetadata where
  simulation_id : String
  user_index : Nat
  study : String
  timestamp : String
  total_turns : Nat
  user_population : String
deriving DecidableEq, Repr

/-- The persisted conversation document `conversation_data`. -/
structure ConversationData (P : Type) where
  profile : P
  dialogue : List Turn
  metadata : ConversationMetadata
deriving DecidableEq, Repr

/-- `Simulator.save_conversation` (`simulator.py` lines 112-136) as the
pure document constructor; the wall-clock timestamp is a parameter. -/
def save_conversation {P : Type} (simulation_id : String) (study_name : String)
    (user_population : String) (timestamp : String)
    (index : Nat) (dialogue : List Turn) (user_profile : P) : ConversationData P :=
  { profile := user_profile
    dialogue := dialogue
    metadata :=
      { simulation_id := simulation_id
        user_index := index
        study := study_name
        timestamp := timestamp
        total_turns := dialogue.length
        user_population := user_population } }

/-- Profile loading/generation branch of `Simulator.__init__`
(`simulator.py` lines 49-55): if no persisted `user_profiles.json` exists
for this `simulation_id`, call `generate_users` (and remember that the
generator ran, returned as the Boolean); otherwise read the file back and
do not call the generator.  `store` maps a simulation id to the content of
its persisted profile file, if any. -/
def init_user_profiles {P : Type} (store : String → Option (List P))
    (generate_users : String → List P) (simulation_id : String) :
    List P × Bool :=
  match store simulation_id with
  | some profiles => (profiles, false)
  | none => (generate_users simulation_id, true)

end Simulator

/-- The profile fields read by `SystemInstructionsHook.on_llm_start`
(`hooks.py` lines 23-36); each is an optional dictionary entry. -/
structure UserProfile where
  professional_background : Option String
  practice_setting : Option String
  communication_style : Option String
deriving DecidableEq, Repr

namespace SystemInstructionsHook

/-- `profile_elements` (`hooks.py` lines 26-32): one labelled line per
profile key present, in source order. -/
def profile_elements (user_profile : UserProfile) : List String :=
  (match user_profile.professional_background with
   | some v => ["Professional background: " ++ v]
   | none => []) ++
  (match user_profile.practice_setting with
   | some v => ["Practice setting: " ++ v]
   | none => []) ++
  (match user_profile.communication_style with
   | some v => ["Communication style: " ++ v]
   | none => [])

/-- `profile_context` (`hooks.py` line 34).  (Computed by the source but
not used in `base_instruction`.) -/
def profile_context (user_profile : UserProfile) : String :=
  if (profile_elements user_profile).isEmpty then "Medical professional"
  else String.intercalate "\n" (profile_elements user_profile)

/-- `style_note` (`hooks.py` line 36):
`user_profile.get('communication_style', 'Professional')`. -/
def style_note (user_profile : UserProfile) : String :=
  "Communication style: " ++ user_profile.communication_style.getD "Professional"

/-- `base_instruction` (`hooks.py` lines 38-45): the persona-grounding
directive injected on every respondent call. -/
def base_instruction (user_profile : UserProfile) : String :=
  "Respond as a real clinician. " ++ style_note user_profile ++
  "\n\nAvoid AI patterns:\n- Don\x27t start with \"That\x27s a good question\"\n- Don\x27t perfectly mirror question structure  \n- Include natural speech patterns and minor imperfections\n- Reference your actual practice context when relevant\n"

/-- `low_frequency_friction` (`hooks.py` lines 72-85): the fixed catalog
of realism directives. -/
def low_frequency_friction : List String :=
  [ "Keep this response SHORT (1-2 sentences max)",
    "This is a complex topic for you - give a longer, more thoughtful response with specific examples",
    "In this response, include a brief false start or self-correction (e.g., \x27Well, I usually... actually, let me think about that differently...\x27)",
    "For this response, reference a very specific recent case with messy details (exact dates, specific numbers, real frustrations)",
    "In this answer, show some uncertainty or admit a knowledge gap rather than being overly confident",
    "Reference a specific practice constraint or workaround you\x27ve had to develop (EMR quirks, insurance hassles, scheduling issues)",
    "Mention a specific time period or event that anchors your experience (\x27last winter when COVID cases spiked,\x27 \x27after the Epic upgrade,\x27 \x27during the formulary change\x27)",
    "Show mild emotion about something in your practice - frustration, satisfaction, surprise, or concern",
    "Include a specific detail that reveals your practice\x27s unique context (rural patient travel times, academic teaching load, specific payer mix, etc.)",
    "Reference a colleague interaction or case discussion that influenced your thinking",
    "Mention a patient outcome that surprised you or changed your approach slightly",
    "Use some colloquial language or sentence fragments that match your age and background" ]

/-- The fixed high-frequency directive (`hooks.py` line 91). -/
def high_frequency_friction : String := "Keep this response SHORT (1-2 sentences max)"

/-- The catalog has 12 entries. -/
def low_frequency_friction_length : low_frequency_friction.length = 12 := rfl

/-- `SystemInstructionsHook.generate_friction_instruction`
(`hooks.py` lines 65-93).  `r1` and `r2` are the two `random.random()`
draws (uniform on `[0,1)`, modelled as rationals), `pick` the uniform
`random.choice` index into the 12-entry catalog.  With probability 0.3
(`r1 < 0.3`) exactly one catalog directive is chosen; independently with
probability 0.5 (`r2 < 0.5`) the fixed short-response directive is
appended; the result is the newline join, or `None` when empty. -/
def generate_friction_instruction (r1 r2 : ℚ) (pick : Fin 12) : Option String :=
  let injected_list : List String :=
    (if r1 < 3/10 then
      [low_frequency_friction.get (Fin.cast low_frequency_friction_length.symm pick)]
     else []) ++
    (if r2 < 1/2 then [high_frequency_friction] else [])
  if injected_list.isEmpty then none else some (String.intercalate "\n" injected_list)

/-- `SystemInstructionsHook.on_llm_start` (`hooks.py` lines 13-63) as the
pure request builder: insert the persona-grounding system message at
position 0, and, when the friction draw produces one, the friction system
message at position 1; the caller's dialogue is untouched (Lean lists are
immutable, and the returned list is the request actually dispatched). -/
def on_llm_start (user_profile : UserProfile) (r1 r2 : ℚ) (pick : Fin 12)
    (input_items : List Turn) : List Turn :=
  let system_message : Turn := ⟨"system", base_instruction user_profile⟩
  match generate_friction_instruction r1 r2 pick with
  | none => system_message :: input_items
  | some f => system_message :: ⟨"system", f⟩ :: input_items

end SystemInstructionsHook

namespace simulate_profiles

/-- The Persona Profile shape (`simulate_profiles.py`, `class Profile`). -/
structure Profile where
  professional_background : String
  practice_setting : String
  treatment_philosophy : String
  personal_notes : String
  communication_style : String
deriving DecidableEq, Repr

/-- The selection step of `generate_profile` (`simulate_profiles.py`
lines 26-78): `random.choice(response.output_parsed.profiles)`.
`profiles` is the batch of parsed candidate profiles returned by the
backend; `pick` is the uniform draw of `random.choice` (an index below
the batch size).  On an empty batch `random.choice` raises `IndexError`,
modelled by `none`: there is no default profile. -/
def generate_profile (profiles : List Profile) (pick : Nat) : Option Profile :=
  profiles[pick]?

end simulate_profiles

/-! ### Observation functions over conversation traces -/

/-- Block indices of the researcher calls of a trace, in order. -/
def researcherIndices {Block : Type} : List (Simulator.SimEvent Block) → List Nat
  | [] => []
  | Simulator.SimEvent.researcherCall bi _ _ _ :: tr => bi :: researcherIndices tr
  | Simulator.SimEvent.respondentCall _ :: tr => researcherIndices tr

/-- Dialogue snapshots at the researcher calls of a trace, in order. -/
def researcherDialogues {Block : Type} : List (Simulator.SimEvent Block) → List (List Turn)
  | [] => []
  | Simulator.SimEvent.researcherCall _ _ dlg _ :: tr => dlg :: researcherDialogues tr
  | Simulator.SimEvent.respondentCall _ :: tr => researcherDialogues tr

/-- Input lists of the respondent calls of a trace, in order. -/
def respondentInputs {Block : Type} : List (Simulator.SimEvent Block) → List (List Turn)
  | [] => []
  | Simulator.SimEvent.researcherCall _ _ _ _ :: tr => respondentInputs tr
  | Simulator.SimEvent.respondentCall i :: tr => i :: respondentInputs tr

/-- Role sequence of a dialogue made of `n` researcher/respondent turn
pairs: `assistant, user, assistant, user, ...`. -/
def rolePattern : Nat → List String
  | 0 => []
  | n + 1 => "assistant" :: "user" :: rolePattern n

/-! ### Concrete stub backends (used to exhibit concrete runs) -/

/-- A stub researcher backend: one question in block 0, then `finished`;
two questions in block 1, then `finished`. -/
def demoResearcher : Nat → List Turn → Nat → Option ResearcherOutput
  | 0, _, _ => some ⟨some "Q1", false⟩
  | 1, _, _ => some ⟨none, true⟩
  | 2, _, _ => some ⟨some "Q2", false⟩
  | 3, _, _ => some ⟨some "Q3", false⟩
  | 4, _, _ => some ⟨none, true⟩
  | _, _, _ => none

/-- A stub respondent backend answering every call. -/
def demoUser : Nat → List Turn → Nat → Option String
  | n, _, _ => some ("A" ++ toString n)

/-- A stub researcher backend returning `{"next_question": null,
"finished": false}` on every call (the §7 invalid-state scenario). -/
def badResearcher : Nat → List Turn → Nat → Option ResearcherOutput
  | _, _, _ => some ⟨none, false⟩

/-- A stub researcher backend that always returns `finished=true`. -/
def finishResearcher : Nat → List Turn → Nat → Option ResearcherOutput
  | _, _, _ => some ⟨none, true⟩

/-- A stub respondent backend whose `final_output` is always `None`. -/
def silentUser : Nat → List Turn → Nat → Option String
  | _, _, _ => none

/-! ### Helper lemmas -/

namespace Simulator

lemma user_dialogue_window_length (d : List Turn) :
    (user_dialogue_window d).length = min d.length 4 := by
  unfold user_dialogue_window
  split
  · rw [List.length_drop]
    omega
  · omega

lemma simLoop_zero {Block : Type}
    (researcher : Nat → List Turn → Block → Option ResearcherOutput)
    (user : Nat → List Turn → Block → Option String)
    (blocks : List Block) (s : LoopState Block) :
    simLoop researcher user blocks 0 s = (SimOutcome.outOfFuel, []) := rfl

lemma simLoop_succ_none {Block : Type}
    (researcher : Nat → List Turn → Block → Option ResearcherOutput)
    (user : Nat → List Turn → Block → Option String)
    (blocks : List Block) (fuel : Nat) (s : LoopState Block)
    (hro : researcher s.rCalls (agentInput s.dialogue) s.discussion_block = none) :
    simLoop researcher user blocks (fuel + 1) s =
      (SimOutcome.valueError,
       [SimEvent.researcherCall s.block_index s.discussion_block s.dialogue
          (agentInput s.dialogue)]) := by
  simp [simLoop, hro]

lemma simLoop_succ_invalid {Block : Type}
    (researcher : Nat → List Turn → Block → Option ResearcherOutput)
    (user : Nat → List Turn → Block → Option String)
    (blocks : List Block) (fuel : Nat) (s : LoopState Block) (o : ResearcherOutput)
    (hro : researcher s.rCalls (agentInput s.dialogue) s.discussion_block = some o)
    (hf : o.finished = false) (hq : truthyStr o.next_question = false) :
    simLoop researcher user blocks (fuel + 1) s =
      (SimOutcome.valueError,
       [SimEvent.researcherCall s.block_index s.discussion_block s.dialogue
          (agentInput s.dialogue)]) := by
  simp [simLoop, hro, hf, hq]

lemma simLoop_succ_finish {Block : Type}
    (researcher : Nat → List Turn → Block → Option ResearcherOutput)
    (user : Nat → List Turn → Block → Option String)
    (blocks : List Block) (fuel : Nat) (s : LoopState Block) (o : ResearcherOutput)
    (hro : researcher s.rCalls (agentInput s.dialogue) s.discussion_block = some o)
    (hf : o.finished = true)
    (hnb : next_block blocks ((s.block_index + 1 : Nat) : Int) = none) :
    simLoop researcher user blocks (fuel + 1) s =
      (SimOutcome.ok s.dialogue,
       [SimEvent.researcherCall s.block_index s.discussion_block s.dialogue
          (agentInput s.dialogue)]) := by
  have hnb' := hnb
  push_cast at hnb'
  simp [simLoop, hro, hf, hnb']

lemma simLoop_succ_advance {Block : Type}
    (researcher : Nat → List Turn → Block → Option ResearcherOutput)
    (user : Nat → List Turn → Block → Option String)
    (blocks : List Block) (fuel : Nat) (s : LoopState Block) (o : ResearcherOutput)
    (nb : Block)
    (hro : researcher s.rCalls (agentInput s.dialogue) s.discussion_block = some o)
    (hf : o.finished = true)
    (hnb : next_block blocks ((s.block_index + 1 : Nat) : Int) = some nb) :
    simLoop researcher user blocks (fuel + 1) s =
      ((simLoop researcher user blocks fuel (advanceState s nb)).1,
       SimEvent.researcherCall s.block_index s.discussion_block s.dialogue
         (agentInput s.dialogue) ::
       (simLoop researcher user blocks fuel (advanceState s nb)).2) := by
  have hnb' := hnb
  push_cast at hnb'
  simp [simLoop, hro, hf, hnb']

lemma simLoop_succ_question {Block : Type}
    (researcher : Nat → List Turn → Block → Option ResearcherOutput)
    (user : Nat → List Turn → Block → Option String)
    (blocks : List Block) (fuel : Nat) (s : LoopState Block) (o : ResearcherOutput)
    (hro : researcher s.rCalls (agentInput s.dialogue) s.discussion_block = some o)
    (hf : o.finished = false) (hq : truthyStr o.next_question = true) :
    simLoop researcher user blocks (fuel + 1) s =
      ((simLoop researcher user blocks fuel
          (questionState user s (o.next_question.getD ""))).1,
       SimEvent.researcherCall s.block_index s.discussion_block s.dialogue
         (agentInput s.dialogue) ::
       SimEvent.respondentCall (respondentInput s (o.next_question.getD "")) ::
       (simLoop researcher user blocks fuel
          (questionState user s (o.next_question.getD ""))).2) := by
  simp [simLoop, hro, hf, hq]

lemma simulate_conversation_nil {Block : Type}
    (researcher : Nat → List Turn → Block → Option ResearcherOutput)
    (user : Nat → List Turn → Block → Option String) (fuel : Nat) :
    simulate_conversation researcher user [] fuel = (SimOutcome.indexError, []) := rfl

lemma simulate_conversation_cons {Block : Type}
    (researcher : Nat → List Turn → Block → Option ResearcherOutput)
    (user : Nat → List Turn → Block → Option String)
    (b : Block) (bs : List Block) (fuel : Nat) :
    simulate_conversation researcher user (b :: bs) fuel =
      simLoop researcher user (b :: bs) fuel
        { dialogue := [], block_index := 0, discussion_block := b,
          rCalls := 0, uCalls := 0 } := by
  simp [simulate_conversation, initial_context_block]

/-- A run with fuel left always starts with a researcher call at the
entry block index. -/
lemma simLoop_trace_head {Block : Type}
    (researcher : Nat → List Turn → Block → Option ResearcherOutput)
    (user : Nat → List Turn → Block → Option String)
    (blocks : List Block) (fuel : Nat) (s : LoopState Block) :
    (researcherIndices (simLoop researcher user blocks (fuel + 1) s).2).head? =
      some s.block_index := by
  cases hro : researcher s.rCalls (agentInput s.dialogue) s.discussion_block with
  | none =>
    rw [simLoop_succ_none researcher user blocks fuel s hro]
    simp [researcherIndices]
  | some o =>
    cases hf : o.finished with
    | true =>
      cases hnb : next_block blocks ((s.block_index + 1 : Nat) : Int) with
      | none =>
        rw [simLoop_succ_finish researcher user blocks fuel s o hro hf hnb]
        simp [researcherIndices]
      | some nb =>
        rw [simLoop_succ_advance researcher user blocks fuel s o nb hro hf hnb]
        simp [researcherIndices]
    | false =>
      cases hq : truthyStr o.next_question with
      | false =>
        rw [simLoop_succ_invalid researcher user blocks fuel s o hro hf hq]
        simp [researcherIndices]
      | true =>
        rw [simLoop_succ_question researcher user blocks fuel s o hro hf hq]
        simp [researcherIndices]

lemma next_block_some {Block : Type} (blocks : List Block) (index : Int) (b : Block)
    (h : next_block blocks index = some b) : blocks[index.toNat]? = some b := by
  unfold next_block at h
  split at h
  · exact h
  · exact absurd h (by simp)

lemma next_block_nat {Block : Type} (blocks : List Block) (n : Nat) (b : Block)
    (h : next_block blocks (n : Int) = some b) : blocks[n]? = some b := by
  have := next_block_some blocks (n : Int) b h
  simpa using this

/-- Any property of the dialogue preserved by appending one
researcher/respondent turn pair holds for the dialogue of a normally
terminated loop, if it held at entry. -/
lemma simLoop_ok_invariant {Block : Type}
    (researcher : Nat → List Turn → Block → Option ResearcherOutput)
    (user : Nat → List Turn → Block → Option String)
    (blocks : List Block) (P : List Turn → Prop)
    (hP : ∀ d q a, P d → P ((d ++ [⟨"assistant", q⟩]) ++ [⟨"user", a⟩])) :
    ∀ fuel s d, P s.dialogue →
      (simLoop researcher user blocks fuel s).1 = SimOutcome.ok d → P d := by
  intro fuel
  induction fuel with
  | zero => intro s d hs h; simp [simLoop_zero] at h
  | succ n ih =>
    intro s d hs h
    cases hro : researcher s.rCalls (agentInput s.dialogue) s.discussion_block with
    | none =>
      rw [simLoop_succ_none researcher user blocks n s hro] at h
      simp at h
    | some o =>
      cases hf : o.finished with
      | true =>
        cases hnb : next_block blocks ((s.block_index + 1 : Nat) : Int) with
        | none =>
          rw [simLoop_succ_finish researcher user blocks n s o hro hf hnb] at h
          simp at h
          exact h ▸ hs
        | some nb =>
          rw [simLoop_succ_advance researcher user blocks n s o nb hro hf hnb] at h
          exact ih (advanceState s nb) d hs h
      | false =>
        cases hq : truthyStr o.next_question with
        | false =>
          rw [simLoop_succ_invalid researcher user blocks n s o hro hf hq] at h
          simp at h
        | true =>
          rw [simLoop_succ_question researcher user blocks n s o hro hf hq] at h
          exact ih (questionState user s (o.next_question.getD "")) d (hP _ _ _ hs) h

/-- On normal termination the entry dialogue is a prefix of the returned
dialogue: the loop only ever appends. -/
lemma simLoop_ok_prefix {Block : Type}
    (researcher : Nat → List Turn → Block → Option ResearcherOutput)
    (user : Nat → List Turn → Block → Option String)
    (blocks : List Block) :
    ∀ fuel s d, (simLoop researcher user blocks fuel s).1 = SimOutcome.ok d →
      s.dialogue <+: d := by
  intro fuel
  induction fuel with
  | zero => intro s d h; simp [simLoop_zero] at h
  | succ n ih =>
    intro s d h
    cases hro : researcher s.rCalls (agentInput s.dialogue) s.discussion_block with
    | none =>
      rw [simLoop_succ_none researcher user blocks n s hro] at h
      simp at h
    | some o =>
      cases hf : o.finished with
      | true =>
        cases hnb : next_block blocks ((s.block_index + 1 : Nat) : Int) with
        | none =>
          rw [simLoop_succ_finish researcher user blocks n s o hro hf hnb] at h
          simp at h
          exact h ▸ List.prefix_refl _
        | some nb =>
          rw [simLoop_succ_advance researcher user blocks n s o nb hro hf hnb] at h
          exact ih (advanceState s nb) d h
      | false =>
        cases hq : truthyStr o.next_question with
        | false =>
          rw [simLoop_succ_invalid researcher user blocks n s o hro hf hq] at h
          simp at h
        | true =>
          rw [simLoop_succ_question researcher user blocks n s o hro hf hq] at h
          have h1 := ih (questionState user s (o.next_question.getD "")) d h
          have h2 : s.dialogue <+: (questionState user s (o.next_question.getD "")).dialogue := by
            simp only [questionState, List.append_assoc]
            exact List.prefix_append _ _
          exact h2.trans h1

/-- On normal termination every dialogue snapshot recorded at a
researcher call is a prefix of the final dialogue: no turn is ever
removed or rewritten. -/
lemma simLoop_ok_snapshots {Block : Type}
    (researcher : Nat → List Turn → Block → Option ResearcherOutput)
    (user : Nat → List Turn → Block → Option String)
    (blocks : List Block) :
    ∀ fuel s d, (simLoop researcher user blocks fuel s).1 = SimOutcome.ok d →
      ∀ dlg ∈ researcherDialogues (simLoop researcher user blocks fuel s).2, dlg <+: d := by
  intro fuel
  induction fuel with
  | zero => intro s d h; simp [simLoop_zero] at h
  | succ n ih =>
    intro s d h dlg hmem
    have hpre := simLoop_ok_prefix researcher user blocks (n + 1) s d h
    cases hro : researcher s.rCalls (agentInput s.dialogue) s.discussion_block with
    | none =>
      rw [simLoop_succ_none researcher user blocks n s hro] at h
      simp at h
    | some o =>
      cases hf : o.finished with
      | true =>
        cases hnb : next_block blocks ((s.block_index + 1 : Nat) : Int) with
        | none =>
          rw [simLoop_succ_finish researcher user blocks n s o hro hf hnb] at h hmem
          simp [researcherDialogues] at hmem
          simp at h
          rw [hmem, ← h]
        | some nb =>
          rw [simLoop_succ_advance researcher user blocks n s o nb hro hf hnb] at h hmem
          simp only [researcherDialogues, List.mem_cons] at hmem
          rcases hmem with rfl | hmem
          · exact hpre
          · exact ih (advanceState s nb) d h dlg hmem
      | false =>
        cases hq : truthyStr o.next_question with
        | false =>
          rw [simLoop_succ_invalid researcher user blocks n s o hro hf hq] at h
          simp at h
        | true =>
          rw [simLoop_succ_question researcher user blocks n s o hro hf hq] at h hmem
          simp only [researcherDialogues, List.mem_cons] at hmem
          rcases hmem with rfl | hmem
          · exact hpre
          · exact ih (questionState user s (o.next_question.getD "")) d h dlg hmem

/-- The researcher-call block indices of a run: the first one is the
entry block index, and each later one equals its predecessor or its
predecessor plus one (blocks advance one at a time, never backwards,
never skipping). -/
lemma simLoop_indices_spec {Block : Type}
    (researcher : Nat → List Turn → Block → Option ResearcherOutput)
    (user : Nat → List Turn → Block → Option String)
    (blocks : List Block) :
    ∀ fuel s,
      (∀ x, (researcherIndices (simLoop researcher user blocks fuel s).2).head? = some x →
        x = s.block_index) ∧
      List.Chain' (fun a b => b = a ∨ b = a + 1)
        (researcherIndices (simLoop researcher user blocks fuel s).2) := by
  intro fuel
  induction fuel with
  | zero =>
    intro s
    refine ⟨?_, ?_⟩ <;> simp [simLoop_zero, researcherIndices]
  | succ n ih =>
    intro s
    cases hro : researcher s.rCalls (agentInput s.dialogue) s.discussion_block with
    | none =>
      rw [simLoop_succ_none researcher user blocks n s hro]
      refine ⟨?_, ?_⟩ <;> simp [researcherIndices]
    | some o =>
      cases hf : o.finished with
      | true =>
        cases hnb : next_block blocks ((s.block_index + 1 : Nat) : Int) with
        | none =>
          rw [simLoop_succ_finish researcher user blocks n s o hro hf hnb]
          refine ⟨?_, ?_⟩ <;> simp [researcherIndices]
        | some nb =>
          rw [simLoop_succ_advance researcher user blocks n s o nb hro hf hnb]
          simp only [researcherIndices]
          refine ⟨?_, ?_⟩
          · intro x hx
            simp at hx
            exact hx.symm
          · refine List.chain'_cons'.mpr ⟨?_, (ih (advanceState s nb)).2⟩
            intro y hy
            have := (ih (advanceState s nb)).1 y hy
            right
            simp [advanceState] at this
            omega
      | false =>
        cases hq : truthyStr o.next_question with
        | false =>
          rw [simLoop_succ_invalid researcher user blocks n s o hro hf hq]
          refine ⟨?_, ?_⟩ <;> simp [researcherIndices]
        | true =>
          rw [simLoop_succ_question researcher user blocks n s o hro hf hq]
          simp only [researcherIndices]
          refine ⟨?_, ?_⟩
          · intro x hx
            simp at hx
            exact hx.symm
          · refine List.chain'_cons'.mpr
              ⟨?_, (ih (questionState user s (o.next_question.getD ""))).2⟩
            intro y hy
            have := (ih (questionState user s (o.next_question.getD ""))).1 y hy
            left
            simpa [questionState] using this

/-- The dialogue snapshots at successive researcher calls form a
prefix chain: the dialogue accumulates across turns and across blocks,
it is never reset. -/
lemma simLoop_dialogues_spec {Block : Type}
    (researcher : Nat → List Turn → Block → Option ResearcherOutput)
    (user : Nat → List Turn → Block → Option String)
    (blocks : List Block) :
    ∀ fuel s,
      (∀ x, (researcherDialogues (simLoop researcher user blocks fuel s).2).head? = some x →
        x = s.dialogue) ∧
      List.Chain' (fun d1 d2 => d1 <+: d2)
        (researcherDialogues (simLoop researcher user blocks fuel s).2) := by
  intro fuel
  induction fuel with
  | zero =>
    intro s
    refine ⟨?_, ?_⟩ <;> simp [simLoop_zero, researcherDialogues]
  | succ n ih =>
    intro s
    cases hro : researcher s.rCalls (agentInput s.dialogue) s.discussion_block with
    | none =>
      rw [simLoop_succ_none researcher user blocks n s hro]
      refine ⟨?_, ?_⟩ <;> simp [researcherDialogues]
    | some o =>
      cases hf : o.finished with
      | true =>
        cases hnb : next_block blocks ((s.block_index + 1 : Nat) : Int) with
        | none =>
          rw [simLoop_succ_finish researcher user blocks n s o hro hf hnb]
          refine ⟨?_, ?_⟩ <;> simp [researcherDialogues]
        | some nb =>
          rw [simLoop_succ_advance researcher user blocks n s o nb hro hf hnb]
          simp only [researcherDialogues]
          refine ⟨?_, ?_⟩
          · intro x hx
            simp at hx
            exact hx.symm
          · refine List.chain'_cons'.mpr ⟨?_, (ih (advanceState s nb)).2⟩
            intro y hy
            have := (ih (advanceState s nb)).1 y hy
            simp [advanceState] at this
            rw [this]
      | false =>
        cases hq : truthyStr o.next_question with
        | false =>
          rw [simLoop_succ_invalid researcher user blocks n s o hro hf hq]
          refine ⟨?_, ?_⟩ <;> simp [researcherDialogues]
        | true =>
          rw [simLoop_succ_question researcher user blocks n s o hro hf hq]
          simp only [researcherDialogues]
          refine ⟨?_, ?_⟩
          · intro x hx
            simp at hx
            exact hx.symm
          · refine List.chain'_cons'.mpr
              ⟨?_, (ih (questionState user s (o.next_question.getD ""))).2⟩
            intro y hy
            have := (ih (questionState user s (o.next_question.getD ""))).1 y hy
            simp [questionState] at this
            rw [this]
            exact List.prefix_append _ _

/-- Every respondent call of a run receives at most 4 turns. -/
lemma simLoop_respondent_inputs {Block : Type}
    (researcher : Nat → List Turn → Block → Option ResearcherOutput)
    (user : Nat → List Turn → Block → Option String)
    (blocks : List Block) :
    ∀ fuel s i, i ∈ respondentInputs (simLoop researcher user blocks fuel s).2 →
      i.length ≤ 4 := by
  intro fuel
  induction fuel with
  | zero => intro s i h; simp [simLoop_zero, respondentInputs] at h
  | succ n ih =>
    intro s i h
    cases hro : researcher s.rCalls (agentInput s.dialogue) s.discussion_block with
    | none =>
      rw [simLoop_succ_none researcher user blocks n s hro] at h
      simp [respondentInputs] at h
    | some o =>
      cases hf : o.finished with
      | true =>
        cases hnb : next_block blocks ((s.block_index + 1 : Nat) : Int) with
        | none =>
          rw [simLoop_succ_finish researcher user blocks n s o hro hf hnb] at h
          simp [respondentInputs] at h
        | some nb =>
          rw [simLoop_succ_advance researcher user blocks n s o nb hro hf hnb] at h
          simp only [respondentInputs] at h
          exact ih (advanceState s nb) i h
      | false =>
        cases hq : truthyStr o.next_question with
        | false =>
          rw [simLoop_succ_invalid researcher user blocks n s o hro hf hq] at h
          simp [respondentInputs] at h
        | true =>
          rw [simLoop_succ_question researcher user blocks n s o hro hf hq] at h
          simp only [respondentInputs, List.mem_cons] at h
          rcases h with rfl | h
          · rw [respondentInput, user_dialogue_window_length]
            omega
          · exact ih (questionState user s (o.next_question.getD "")) i h

/-- Every researcher call of a run receives `agentInput` of its dialogue
snapshot: the full accumulated dialogue, or the synthetic opening turn
when the dialogue is still empty. -/
lemma simLoop_researcher_inputs {Block : Type}
    (researcher : Nat → List Turn → Block → Option ResearcherOutput)
    (user : Nat → List Turn → Block → Option String)
    (blocks : List Block) :
    ∀ fuel s bi blk dlg inp,
      SimEvent.researcherCall bi blk dlg inp ∈ (simLoop researcher user blocks fuel s).2 →
        inp = agentInput dlg := by
  intro fuel
  induction fuel with
  | zero => intro s bi blk dlg inp h; simp [simLoop_zero] at h
  | succ n ih =>
    intro s bi blk dlg inp h
    cases hro : researcher s.rCalls (agentInput s.dialogue) s.discussion_block with
    | none =>
      rw [simLoop_succ_none researcher user blocks n s hro] at h
      simp at h
      rw [h.2.2.2, h.2.2.1]
    | some o =>
      cases hf : o.finished with
      | true =>
        cases hnb : next_block blocks ((s.block_index + 1 : Nat) : Int) with
        | none =>
          rw [simLoop_succ_finish researcher user blocks n s o hro hf hnb] at h
          simp at h
          rw [h.2.2.2, h.2.2.1]
        | some nb =>
          rw [simLoop_succ_advance researcher user blocks n s o nb hro hf hnb] at h
          simp only [List.mem_cons] at h
          rcases h with h | h
          · simp at h
            rw [h.2.2.2, h.2.2.1]
          · exact ih (advanceState s nb) bi blk dlg inp h
      | false =>
        cases hq : truthyStr o.next_question with
        | false =>
          rw [simLoop_succ_invalid researcher user blocks n s o hro hf hq] at h
          simp at h
          rw [h.2.2.2, h.2.2.1]
        | true =>
          rw [simLoop_succ_question researcher user blocks n s o hro hf hq] at h
          simp only [List.mem_cons] at h
          rcases h with h | h
          · simp at h
            rw [h.2.2.2, h.2.2.1]
          · rcases h with h | h
            · exact absurd h (by simp)
            · exact ih (questionState user s (o.next_question.getD "")) bi blk dlg inp h

/-- Every researcher call of a run sees as active block exactly the
guide entry at its block index, provided this holds at entry. -/
lemma simLoop_blocks_consistent {Block : Type}
    (researcher : Nat → List Turn → Block → Option ResearcherOutput)
    (user : Nat → List Turn → Block → Option String)
    (blocks : List Block) :
    ∀ fuel s, blocks[s.block_index]? = some s.discussion_block →
      ∀ bi blk dlg inp,
        SimEvent.researcherCall bi blk dlg inp ∈ (simLoop researcher user blocks fuel s).2 →
          blocks[bi]? = some blk := by
  intro fuel
  induction fuel with
  | zero => intro s hs bi blk dlg inp h; simp [simLoop_zero] at h
  | succ n ih =>
    intro s hs bi blk dlg inp h
    cases hro : researcher s.rCalls (agentInput s.dialogue) s.discussion_block with
    | none =>
      rw [simLoop_succ_none researcher user blocks n s hro] at h
      simp at h
      rw [h.1, h.2.1]
      exact hs
    | some o =>
      cases hf : o.finished with
      | true =>
        cases hnb : next_block blocks ((s.block_index + 1 : Nat) : Int) with
        | none =>
          rw [simLoop_succ_finish researcher user blocks n s o hro hf hnb] at h
          simp at h
          rw [h.1, h.2.1]
          exact hs
        | some nb =>
          rw [simLoop_succ_advance researcher user blocks n s o nb hro hf hnb] at h
          simp only [List.mem_cons] at h
          rcases h with h | h
          · simp at h
            rw [h.1, h.2.1]
            exact hs
          · refine ih (advanceState s nb) ?_ bi blk dlg inp h
            have := next_block_nat blocks (s.block_index + 1) nb hnb
            simpa [advanceState] using this
      | false =>
        cases hq : truthyStr o.next_question with
        | false =>
          rw [simLoop_succ_invalid researcher user blocks n s o hro hf hq] at h
          simp at h
          rw [h.1, h.2.1]
          exact hs
        | true =>
          rw [simLoop_succ_question researcher user blocks n s o hro hf hq] at h
          simp only [List.mem_cons] at h
          rcases h with h | h
          · simp at h
            rw [h.1, h.2.1]
            exact hs
          · rcases h with h | h
            · exact absurd h (by simp)
            · refine ih (questionState user s (o.next_question.getD "")) ?_ bi blk dlg inp h
              simpa [questionState] using hs

end Simulator

lemma rolePattern_append (n : Nat) :
    rolePattern n ++ ["assistant", "user"] = rolePattern (n + 1) := by
  induction n with
  | zero => rfl
  | succ k ih => simp only [rolePattern, List.cons_append, ih]

lemma rolePattern_head (n : Nat) :
    (rolePattern n).head? = none ∨ (rolePattern n).head? = some "assistant" := by
  cases n <;> simp [rolePattern]

lemma rolePattern_chain' (n : Nat) :
    List.Chain' (fun a b => a ≠ b) (rolePattern n) := by
  induction n with
  | zero => simp [rolePattern]
  | succ k ih =>
    rw [rolePattern]
    refine List.chain'_cons.mpr ⟨by decide, List.chain'_cons'.mpr ⟨?_, ih⟩⟩
    intro y hy
    rcases rolePattern_head k with h | h
    · rw [h] at hy
      exact absurd hy (by simp)
    · rw [h] at hy
      simp at hy
      rw [← hy]
      decide

lemma next_block_out_of_range {Block : Type} (blocks : List Block) (index : Int)
    (h : index < 0 ∨ (blocks.length : Int) ≤ index) :
    Simulator.next_block blocks index = none := by
  unfold Simulator.next_block
  rw [if_neg]
  rintro ⟨h0, h1⟩
  rcases h with h | h <;> omega

lemma intercalate_pair (a b : String) :
    String.intercalate "\n" [a, b] = a ++ "\n" ++ b := by
  simp [String.intercalate, String.intercalate.go]

lemma intercalate_single (a : String) : String.intercalate "\n" [a] = a := by
  simp [String.intercalate, String.intercalate.go]

/-! ### Claim theorems -/

/-- C8: `generate_profile` returns the batch element selected by the
uniform `random.choice` draw — every candidate profile of the parsed
batch is returned for its own index — and on an empty batch (no
parseable profiles) it fails hard (`IndexError`, modelled `none`) rather
than returning a silent default profile. -/
theorem C8_profile_selection (profiles : List simulate_profiles.Profile) (pick : Nat) :
    (∀ h : pick < profiles.length,
       simulate_profiles.generate_profile profiles pick =
         some (profiles.get ⟨pick, h⟩)) ∧
    (profiles = [] → simulate_profiles.generate_profile profiles pick = none) := by
  constructor
  · intro h
    simp [simulate_profiles.generate_profile, List.getElem?_eq_getElem h]
  · rintro rfl
    simp [simulate_profiles.generate_profile]

/-- C8 witness: a concrete two-profile batch with `pick = 1` yields the
second profile, and the empty batch yields `none`. -/
theorem C8_witness :
    (1 : Nat) < ([⟨"a", "b", "c", "d", "e"⟩, ⟨"f", "g", "h", "i", "j"⟩] :
        List simulate_profiles.Profile).length ∧
    simulate_profiles.generate_profile
        [⟨"a", "b", "c", "d", "e"⟩, ⟨"f", "g", "h", "i", "j"⟩] 1 =
      some ⟨"f", "g", "h", "i", "j"⟩ ∧
    simulate_profiles.generate_profile [] 0 = none := by
  refine ⟨by decide, ?_, ?_⟩
  · exact (C8_profile_selection _ 1).1 (by decide)
  · exact (C8_profile_selection [] 0).2 rfl

/-- C9: profile reuse is idempotent in the run id: when a persisted
profile batch exists for simulation id `R`, constructing the simulator
again returns exactly the persisted profiles, reports that the generator
did not run, and the result does not depend on the generator function at
all. -/
theorem C9_profile_reuse {P : Type} (store : String → Option (List P))
    (generate_users : String → List P) (R : String) (ps : List P)
    (h : store R = some ps) :
    Simulator.init_user_profiles store generate_users R = (ps, false) ∧
    ∀ gen2 : String → List P,
      Simulator.init_user_profiles store gen2 R =
        Simulator.init_user_profiles store generate_users R := by
  constructor
  · unfold Simulator.init_user_profiles
    rw [h]
  · intro gen2
    unfold Simulator.init_user_profiles
    rw [h]

/-- C9 witness: a concrete store holding `[7, 9]` for run id `"R"` is
reused unchanged whatever the generator would produce. -/
theorem C9_witness :
    (fun s => if s = "R" then some [7, 9] else none) "R" = some [7, 9] ∧
    Simulator.init_user_profiles (fun s => if s = "R" then some [7, 9] else none)
      (fun _ => [1, 2, 3]) "R" = ([7, 9], false) := by
  refine ⟨rfl, ?_⟩
  exact (C9_profile_reuse (fun s => if s = "R" then some [7, 9] else none)
    (fun _ => [1, 2, 3]) "R" [7, 9] rfl).1

/-- C10: a study whose discussion guide has an empty blocks list makes
`simulate_conversation` fail immediately on the unguarded first-block
access — before any backend call or dialogue turn (empty trace) and with
an outcome distinct from the persisting `ok` — whereas `_next_block` is
total on integer indices: outside `[0, number of blocks)` it returns
`None` instead of raising, and inside that range it returns a block. -/
theorem C10_empty_guide_and_total_next_block {Block : Type}
    (researcher : Nat → List Turn → Block → Option ResearcherOutput)
    (user : Nat → List Turn → Block → Option String)
    (blocks : List Block) (fuel : Nat) (index : Int) :
    (blocks = [] → Simulator.simulate_conversation researcher user blocks fuel =
       (Simulator.SimOutcome.indexError, [])) ∧
    (∀ d, (Simulator.SimOutcome.indexError : Simulator.SimOutcome Block) ≠ Simulator.SimOutcome.ok d) ∧
    (index < 0 ∨ (blocks.length : Int) ≤ index →
       Simulator.next_block blocks index = none) ∧
    (0 ≤ index → index < (blocks.length : Int) →
       ∃ b, Simulator.next_block blocks index = some b) := by
  refine ⟨?_, ?_, ?_, ?_⟩
  · rintro rfl
    exact Simulator.simulate_conversation_nil researcher user fuel
  · intro d h
    exact Simulator.SimOutcome.noConfusion h
  · intro h
    unfold Simulator.next_block
    rw [if_neg]
    rintro ⟨h0, h1⟩
    rcases h with h | h <;> omega
  · intro h0 h1
    unfold Simulator.next_block
    rw [if_pos ⟨h0, h1⟩]
    exact ⟨blocks[index.toNat], List.getElem?_eq_getElem (by omega)⟩

/-- C10 witness: the empty guide fails immediately; `_next_block` on the
one-block guide returns `None` at `-1` and at `1`, and a block at `0`. -/
theorem C10_witness :
    Simulator.simulate_conversation demoResearcher demoUser [] 5 =
      (Simulator.SimOutcome.indexError, []) ∧
    Simulator.next_block ([10] : List Nat) (-1) = none ∧
    Simulator.next_block ([10] : List Nat) 1 = none ∧
    (∃ b, Simulator.next_block ([10] : List Nat) 0 = some b) := by
  refine ⟨?_, ?_, ?_, ?_⟩
  · exact (C10_empty_guide_and_total_next_block demoResearcher demoUser [] 5 0).1 rfl
  · exact (C10_empty_guide_and_total_next_block demoResearcher demoUser [10] 5 (-1)).2.2.1
      (Or.inl (by norm_num))
  · exact (C10_empty_guide_and_total_next_block demoResearcher demoUser [10] 5 1).2.2.1
      (Or.inr (by norm_num))
  · exact (C10_empty_guide_and_total_next_block demoResearcher demoUser [10] 5 0).2.2.2
      (by norm_num) (by norm_num)

/-- C4: when the researcher result has `finished` false (or the output is
absent) and `next_question` absent (or empty, which Python treats the
same), the loop raises the explicit
`ValueError("No next question from market researcher")` at once — no turn
is appended, no block advanced, one single researcher event in the trace —
and this error is a different outcome from the non-fatal empty respondent
reply, which just appends an empty `user` turn and continues. -/
theorem C4_invalid_state_error {Block : Type}
    (researcher : Nat → List Turn → Block → Option ResearcherOutput)
    (user : Nat → List Turn → Block → Option String)
    (blocks : List Block) (fuel : Nat) (s : Simulator.LoopState Block) :
    (researcher s.rCalls (Simulator.agentInput s.dialogue) s.discussion_block = none →
       Simulator.simLoop researcher user blocks (fuel + 1) s =
         (Simulator.SimOutcome.valueError,
          [Simulator.SimEvent.researcherCall s.block_index s.discussion_block s.dialogue
             (Simulator.agentInput s.dialogue)])) ∧
    (∀ o : ResearcherOutput,
       researcher s.rCalls (Simulator.agentInput s.dialogue) s.discussion_block = some o →
       o.finished = false → truthyStr o.next_question = false →
       Simulator.simLoop researcher user blocks (fuel + 1) s =
         (Simulator.SimOutcome.valueError,
          [Simulator.SimEvent.researcherCall s.block_index s.discussion_block s.dialogue
             (Simulator.agentInput s.dialogue)])) ∧
    (∀ d, (Simulator.SimOutcome.valueError : Simulator.SimOutcome Block) ≠ Simulator.SimOutcome.ok d) ∧
    (∀ (o : ResearcherOutput) (q : String),
       researcher s.rCalls (Simulator.agentInput s.dialogue) s.discussion_block = some o →
       o.finished = false → o.next_question = some q → q ≠ "" →
       (user s.uCalls (Simulator.respondentInput s q) s.discussion_block = none ∨
        user s.uCalls (Simulator.respondentInput s q) s.discussion_block = some "") →
       (Simulator.questionState user s q).dialogue =
         (s.dialogue ++ [⟨"assistant", q⟩]) ++ [⟨"user", ""⟩] ∧
       (Simulator.simLoop researcher user blocks (fuel + 1) s).1 =
         (Simulator.simLoop researcher user blocks fuel
           (Simulator.questionState user s q)).1) := by
  refine ⟨?_, ?_, ?_, ?_⟩
  · intro hro
    exact Simulator.simLoop_succ_none researcher user blocks fuel s hro
  · intro o hro hf hq
    exact Simulator.simLoop_succ_invalid researcher user blocks fuel s o hro hf hq
  · intro d h
    exact Simulator.SimOutcome.noConfusion h
  · intro o q hro hf hnq hqne huser
    have hq : truthyStr o.next_question = true := by
      rw [hnq]
      simp [truthyStr, hqne]
    have hget : o.next_question.getD "" = q := by rw [hnq]; rfl
    have hstep := Simulator.simLoop_succ_question researcher user blocks fuel s o hro hf hq
    rw [hget] at hstep
    constructor
    · rcases huser with h | h <;> simp [Simulator.questionState, h]
    · rw [hstep]

/-- C4 witness: the always-invalid stub raises the invalid-state error in
one step with no turn appended, while a `None` respondent reply merely
appends an empty `user` turn. -/
theorem C4_witness :
    Simulator.simLoop badResearcher demoUser ([10] : List Nat) 5 ⟨[], 0, 10, 0, 0⟩ =
      (Simulator.SimOutcome.valueError,
       [Simulator.SimEvent.researcherCall 0 10 []
          (Simulator.agentInput [])]) ∧
    (Simulator.questionState silentUser
        (⟨[], 0, 10, 0, 0⟩ : Simulator.LoopState Nat) "Q1").dialogue =
      (([] : List Turn) ++ [⟨"assistant", "Q1"⟩]) ++ [⟨"user", ""⟩] := by
  constructor
  · exact (C4_invalid_state_error badResearcher demoUser [10] 4 ⟨[], 0, 10, 0, 0⟩).2.1
      ⟨none, false⟩ rfl rfl rfl
  · exact ((C4_invalid_state_error demoResearcher silentUser [10] 4
      ⟨[], 0, 10, 0, 0⟩).2.2.2 ⟨some "Q1", false⟩ "Q1" rfl rfl rfl (by decide)
      (Or.inl rfl)).1

/-- C5 counterexample: for a 1-block guide whose researcher backend
returns `finished=true` on the first call, the persisted dialogue is
empty — it does NOT contain the synthetic opening turn, contradicting
the claim that the Dialogue is seeded with it. -/
theorem C5_counterexample :
    (Simulator.simulate_conversation finishResearcher silentUser ([10] : List Nat) 5).1 =
      Simulator.SimOutcome.ok [] ∧
    (Simulator.simulate_conversation finishResearcher silentUser ([10] : List Nat) 5).1 ≠
      Simulator.SimOutcome.ok [Simulator.openingTurn] := by
  constructor
  · decide
  · decide

/-- C5 (amended): when the Dialogue is empty the synthetic opening turn
(`user: "Hi"`) is passed to the researcher as its input, but it is never
appended to the Dialogue itself; for a 1-block guide whose researcher
returns `finished=true` on the first call the run terminates with an
EMPTY persisted dialogue (one researcher call in the trace, whose input
was the opening turn), and the persisted `total_turns` equals that
dialogue's length, namely 0. -/
theorem C5_opening_turn_not_persisted {Block P : Type}
    (researcher : Nat → List Turn → Block → Option ResearcherOutput)
    (user : Nat → List Turn → Block → Option String)
    (b : Block) (fuel : Nat) (o : ResearcherOutput)
    (simulation_id study_name user_population timestamp : String) (index : Nat)
    (profile : P)
    (hro : researcher 0 [Simulator.openingTurn] b = some o)
    (hfin : o.finished = true) :
    Simulator.agentInput [] = [Simulator.openingTurn] ∧
    Simulator.simulate_conversation researcher user [b] (fuel + 1) =
      (Simulator.SimOutcome.ok [],
       [Simulator.SimEvent.researcherCall 0 b [] [Simulator.openingTurn]]) ∧
    (Simulator.save_conversation simulation_id study_name user_population timestamp
        index [] profile).metadata.total_turns = ([] : List Turn).length := by
  refine ⟨rfl, ?_, rfl⟩
  rw [Simulator.simulate_conversation_cons]
  have hnb : Simulator.next_block [b] (((0 : Nat) + 1 : Nat) : Int) = none := by
    refine next_block_out_of_range [b] _ (Or.inr ?_)
    simp
  exact Simulator.simLoop_succ_finish researcher user [b] fuel
    ⟨[], 0, b, 0, 0⟩ o hro hfin hnb

/-- C5 witness: the concrete 1-block, finish-immediately run. -/
theorem C5_witness :
    finishResearcher 0 [Simulator.openingTurn] 10 = some ⟨none, true⟩ ∧
    (⟨none, true⟩ : ResearcherOutput).finished = true ∧
    Simulator.simulate_conversation finishResearcher silentUser [(10 : Nat)] (4 + 1) =
      (Simulator.SimOutcome.ok [],
       [Simulator.SimEvent.researcherCall 0 10 [] [Simulator.openingTurn]]) ∧
    (Simulator.save_conversation "sid" "study" "pop" "ts" 0 [] (0 : Nat)).metadata.total_turns =
      ([] : List Turn).length := by
  refine ⟨rfl, rfl, ?_, ?_⟩
  · exact (C5_opening_turn_not_persisted finishResearcher silentUser 10 4 ⟨none, true⟩
      "sid" "study" "pop" "ts" 0 (0 : Nat) rfl rfl).2.1
  · exact (C5_opening_turn_not_persisted finishResearcher silentUser 10 4 ⟨none, true⟩
      "sid" "study" "pop" "ts" 0 (0 : Nat) rfl rfl).2.2

/-- C6: the friction generator fires the catalog draw exactly when the
first uniform draw is below 0.3 — choosing exactly the one catalog entry
indexed by the uniform pick, from a catalog of exactly 12 directives —
and independently appends the fixed short-response directive exactly when
the second uniform draw is below 0.5; when neither fires there is no
friction directive, while the persona-grounding directive is injected
first on every call regardless. -/
theorem C6_friction_distribution (r1 r2 : ℚ) (pick : Fin 12) (profile : UserProfile)
    (items : List Turn) :
    SystemInstructionsHook.low_frequency_friction.length = 12 ∧
    (r1 < 3/10 → r2 < 1/2 →
      SystemInstructionsHook.generate_friction_instruction r1 r2 pick =
        some (SystemInstructionsHook.low_frequency_friction.get
            (Fin.cast SystemInstructionsHook.low_frequency_friction_length.symm pick) ++
          "\n" ++ SystemInstructionsHook.high_frequency_friction)) ∧
    (r1 < 3/10 → ¬ r2 < 1/2 →
      SystemInstructionsHook.generate_friction_instruction r1 r2 pick =
        some (SystemInstructionsHook.low_frequency_friction.get
          (Fin.cast SystemInstructionsHook.low_frequency_friction_length.symm pick))) ∧
    (¬ r1 < 3/10 → r2 < 1/2 →
      SystemInstructionsHook.generate_friction_instruction r1 r2 pick =
        some SystemInstructionsHook.high_frequency_friction) ∧
    (¬ r1 < 3/10 → ¬ r2 < 1/2 →
      SystemInstructionsHook.generate_friction_instruction r1 r2 pick = none) ∧
    (SystemInstructionsHook.on_llm_start profile r1 r2 pick items).head? =
      some ⟨"system", SystemInstructionsHook.base_instruction profile⟩ := by
  refine ⟨rfl, ?_, ?_, ?_, ?_, ?_⟩
  · intro h1 h2
    rw [one_div] at h2
    simp [SystemInstructionsHook.generate_friction_instruction, h1, h2, intercalate_pair]
  · intro h1 h2
    rw [one_div] at h2
    simp [SystemInstructionsHook.generate_friction_instruction, h1, h2, intercalate_single]
  · intro h1 h2
    rw [one_div] at h2
    simp [SystemInstructionsHook.generate_friction_instruction, h1, h2, intercalate_single]
  · intro h1 h2
    rw [one_div] at h2
    simp [SystemInstructionsHook.generate_friction_instruction, h1, h2]
  · unfold SystemInstructionsHook.on_llm_start
    cases SystemInstructionsHook.generate_friction_instruction r1 r2 pick <;> simp

/-- C6 witness: concrete draws firing only the low-frequency trigger
select exactly the picked catalog entry, and the persona directive heads
the injected request. -/
theorem C6_witness :
    ((1 : ℚ)/10 < 3/10) ∧ ¬((3 : ℚ)/4 < 1/2) ∧
    SystemInstructionsHook.generate_friction_instruction (1/10) (3/4) (2 : Fin 12) =
      some (SystemInstructionsHook.low_frequency_friction.get
        (Fin.cast SystemInstructionsHook.low_frequency_friction_length.symm 2)) ∧
    (SystemInstructionsHook.on_llm_start ⟨none, none, none⟩ (1/10) (3/4) 2 []).head? =
      some ⟨"system", SystemInstructionsHook.base_instruction ⟨none, none, none⟩⟩ := by
  refine ⟨by norm_num, by norm_num, ?_, ?_⟩
  · exact (C6_friction_distribution (1/10) (3/4) 2 ⟨none, none, none⟩ []).2.2.1
      (by norm_num) (by norm_num)
  · exact (C6_friction_distribution (1/10) (3/4) 2 ⟨none, none, none⟩ []).2.2.2.2.2

/-- C7: the injected system directives are ordered persona-grounding
first, friction second, and both precede all real dialogue turns of the
request (the request is exactly the injected block followed by the
unchanged input turns); and no injected directive ever reaches the
persisted dialogue — in every successful run every persisted turn's role
is `assistant` or `user`, never `system`. -/
theorem C7_injection_order {Block : Type} (profile : UserProfile) (r1 r2 : ℚ)
    (pick : Fin 12) (items : List Turn)
    (researcher : Nat → List Turn → Block → Option ResearcherOutput)
    (user : Nat → List Turn → Block → Option String)
    (blocks : List Block) (fuel : Nat) (d : List Turn) :
    (∃ injected,
       SystemInstructionsHook.on_llm_start profile r1 r2 pick items = injected ++ items ∧
       injected.head? = some ⟨"system", SystemInstructionsHook.base_instruction profile⟩ ∧
       (∀ t ∈ injected, t.role = "system") ∧
       (∀ f, SystemInstructionsHook.generate_friction_instruction r1 r2 pick = some f →
         injected = [⟨"system", SystemInstructionsHook.base_instruction profile⟩,
                     ⟨"system", f⟩]) ∧
       (SystemInstructionsHook.generate_friction_instruction r1 r2 pick = none →
         injected = [⟨"system", SystemInstructionsHook.base_instruction profile⟩])) ∧
    ((Simulator.simulate_conversation researcher user blocks fuel).1 =
        Simulator.SimOutcome.ok d →
      ∀ t ∈ d, t.role = "assistant" ∨ t.role = "user") := by
  constructor
  · cases hg : SystemInstructionsHook.generate_friction_instruction r1 r2 pick with
    | none =>
      refine ⟨[⟨"system", SystemInstructionsHook.base_instruction profile⟩], ?_, rfl, ?_, ?_, ?_⟩
      · simp [SystemInstructionsHook.on_llm_start, hg]
      · intro t ht
        simp at ht
        rw [ht]
      · intro f hf
        exact Option.noConfusion hf
      · intro _
        rfl
    | some f =>
      refine ⟨[⟨"system", SystemInstructionsHook.base_instruction profile⟩, ⟨"system", f⟩],
        ?_, rfl, ?_, ?_, ?_⟩
      · simp [SystemInstructionsHook.on_llm_start, hg]
      · intro t ht
        simp at ht
        rcases ht with ht | ht <;> rw [ht]
      · intro g hgf
        rw [Option.some_inj.mp hgf]
      · intro hc
        exact Option.noConfusion hc
  · intro h
    cases blocks with
    | nil =>
      rw [Simulator.simulate_conversation_nil] at h
      simp at h
    | cons b bs =>
      rw [Simulator.simulate_conversation_cons] at h
      refine Simulator.simLoop_ok_invariant researcher user (b :: bs)
        (fun dd => ∀ t ∈ dd, t.role = "assistant" ∨ t.role = "user") ?_ fuel _ d
        (by simp) h
      intro dd q a hdd t ht
      simp only [List.append_assoc, List.mem_append, List.mem_cons, List.not_mem_nil,
        or_false] at ht
      rcases ht with ht | ht | ht
      · exact hdd t ht
      · rw [ht]
        exact Or.inl rfl
      · rw [ht]
        exact Or.inr rfl

/-- C7 witness: the persona directive heads a concrete injected request,
and a concrete successful run's turns are all researcher/respondent
turns. -/
theorem C7_witness :
    ((Simulator.simulate_conversation demoResearcher demoUser [10, 20] 50).1 =
      Simulator.SimOutcome.ok [⟨"assistant", "Q1"⟩, ⟨"user", "A0"⟩, ⟨"assistant", "Q2"⟩,
        ⟨"user", "A1"⟩, ⟨"assistant", "Q3"⟩, ⟨"user", "A2"⟩]) ∧
    ((⟨"user", "A0"⟩ : Turn).role = "assistant" ∨ (⟨"user", "A0"⟩ : Turn).role = "user") ∧
    (SystemInstructionsHook.on_llm_start ⟨none, none, none⟩ 0 0 2
        [⟨"assistant", "Q1"⟩]).head? =
      some ⟨"system", SystemInstructionsHook.base_instruction ⟨none, none, none⟩⟩ := by
  refine ⟨by decide, ?_, ?_⟩
  · exact (C7_injection_order ⟨none, none, none⟩ 0 0 2 [] demoResearcher demoUser [10, 20]
      50 [⟨"assistant", "Q1"⟩, ⟨"user", "A0"⟩, ⟨"assistant", "Q2"⟩, ⟨"user", "A1"⟩,
        ⟨"assistant", "Q3"⟩, ⟨"user", "A2"⟩]).2 (by decide) ⟨"user", "A0"⟩ (by decide)
  · obtain ⟨inj, h1, h2, -⟩ := (C7_injection_order ⟨none, none, none⟩ 0 0 2
      [⟨"assistant", "Q1"⟩] demoResearcher demoUser ([10, 20] : List Nat) 50 []).1
    rw [h1, List.head?_append_of_ne_nil]
    · exact h2
    · intro hc
      rw [hc] at h2
      exact Option.noConfusion h2

/-- C1: when the researcher result has `finished` true the loop
increments the block index; if a block exists at the new index it becomes
the active `discussion_block` and the loop continues with the dialogue
untouched (not reset), otherwise the loop terminates at once.
Consequently, over any whole run, the researcher-call block indices start
at 0, never decrease, and advance by exactly one — blocks are visited in
strictly increasing index order, each at most once, with no skipping or
revisiting — the dialogue snapshots form a prefix chain, and every call's
active block is the guide entry at its index. -/
theorem C1_block_traversal {Block : Type}
    (researcher : Nat → List Turn → Block → Option ResearcherOutput)
    (user : Nat → List Turn → Block → Option String)
    (blocks : List Block) (fuel : Nat) :
    (∀ (s : Simulator.LoopState Block) (o : ResearcherOutput) (nb : Block),
        researcher s.rCalls (Simulator.agentInput s.dialogue) s.discussion_block = some o →
        o.finished = true →
        Simulator.next_block blocks ((s.block_index + 1 : Nat) : Int) = some nb →
        (Simulator.advanceState s nb).dialogue = s.dialogue ∧
        (Simulator.advanceState s nb).block_index = s.block_index + 1 ∧
        (Simulator.advanceState s nb).discussion_block = nb ∧
        Simulator.simLoop researcher user blocks (fuel + 1) s =
          ((Simulator.simLoop researcher user blocks fuel (Simulator.advanceState s nb)).1,
           Simulator.SimEvent.researcherCall s.block_index s.discussion_block s.dialogue
             (Simulator.agentInput s.dialogue) ::
           (Simulator.simLoop researcher user blocks fuel
             (Simulator.advanceState s nb)).2)) ∧
    (∀ (s : Simulator.LoopState Block) (o : ResearcherOutput),
        researcher s.rCalls (Simulator.agentInput s.dialogue) s.discussion_block = some o →
        o.finished = true →
        Simulator.next_block blocks ((s.block_index + 1 : Nat) : Int) = none →
        Simulator.simLoop researcher user blocks (fuel + 1) s =
          (Simulator.SimOutcome.ok s.dialogue,
           [Simulator.SimEvent.researcherCall s.block_index s.discussion_block s.dialogue
              (Simulator.agentInput s.dialogue)])) ∧
    List.Chain' (fun a b => b = a ∨ b = a + 1)
      (researcherIndices (Simulator.simulate_conversation researcher user blocks fuel).2) ∧
    (blocks ≠ [] → fuel ≠ 0 →
      (researcherIndices
        (Simulator.simulate_conversation researcher user blocks fuel).2).head? = some 0) ∧
    List.Chain' (fun d1 d2 => d1 <+: d2)
      (researcherDialogues (Simulator.simulate_conversation researcher user blocks fuel).2) ∧
    (∀ bi blk dlg inp,
        Simulator.SimEvent.researcherCall bi blk dlg inp ∈
          (Simulator.simulate_conversation researcher user blocks fuel).2 →
        blocks[bi]? = some blk) := by
  refine ⟨?_, ?_, ?_, ?_, ?_, ?_⟩
  · intro s o nb hro hf hnb
    exact ⟨rfl, rfl, rfl,
      Simulator.simLoop_succ_advance researcher user blocks fuel s o nb hro hf hnb⟩
  · intro s o hro hf hnb
    exact Simulator.simLoop_succ_finish researcher user blocks fuel s o hro hf hnb
  · cases blocks with
    | nil =>
      rw [Simulator.simulate_conversation_nil]
      simp [researcherIndices]
    | cons b bs =>
      rw [Simulator.simulate_conversation_cons]
      exact (Simulator.simLoop_indices_spec researcher user (b :: bs) fuel _).2
  · intro hb hf
    cases blocks with
    | nil => exact absurd rfl hb
    | cons b bs =>
      cases fuel with
      | zero => exact absurd rfl hf
      | succ k =>
        rw [Simulator.simulate_conversation_cons]
        exact Simulator.simLoop_trace_head researcher user (b :: bs) k _
  · cases blocks with
    | nil =>
      rw [Simulator.simulate_conversation_nil]
      simp [researcherDialogues]
    | cons b bs =>
      rw [Simulator.simulate_conversation_cons]
      exact (Simulator.simLoop_dialogues_spec researcher user (b :: bs) fuel _).2
  · cases blocks with
    | nil =>
      intro bi blk dlg inp hm
      rw [Simulator.simulate_conversation_nil] at hm
      simp at hm
    | cons b bs =>
      intro bi blk dlg inp hm
      rw [Simulator.simulate_conversation_cons] at hm
      refine Simulator.simLoop_blocks_consistent researcher user (b :: bs) fuel _ ?_
        bi blk dlg inp hm
      simp

/-- C1 witness: in a concrete 2-block run, `finished` at block 0
advances to block 1 with the dialogue untouched, and the run's researcher
calls start at index 0. -/
theorem C1_witness :
    demoResearcher 1 (Simulator.agentInput [⟨"assistant", "Q1"⟩, ⟨"user", "A0"⟩]) 10 =
      some ⟨none, true⟩ ∧
    Simulator.next_block ([10, 20] : List Nat) ((0 + 1 : Nat) : Int) = some 20 ∧
    Simulator.simLoop demoResearcher demoUser [10, 20] (3 + 1)
        ⟨[⟨"assistant", "Q1"⟩, ⟨"user", "A0"⟩], 0, 10, 1, 1⟩ =
      ((Simulator.simLoop demoResearcher demoUser [10, 20] 3
          (Simulator.advanceState ⟨[⟨"assistant", "Q1"⟩, ⟨"user", "A0"⟩], 0, 10, 1, 1⟩
            20)).1,
       Simulator.SimEvent.researcherCall 0 10 [⟨"assistant", "Q1"⟩, ⟨"user", "A0"⟩]
         (Simulator.agentInput [⟨"assistant", "Q1"⟩, ⟨"user", "A0"⟩]) ::
       (Simulator.simLoop demoResearcher demoUser [10, 20] 3
          (Simulator.advanceState ⟨[⟨"assistant", "Q1"⟩, ⟨"user", "A0"⟩], 0, 10, 1, 1⟩
            20)).2) ∧
    (researcherIndices
      (Simulator.simulate_conversation demoResearcher demoUser [10, 20] 50).2).head? =
      some 0 := by
  refine ⟨rfl, by decide, ?_, ?_⟩
  · exact ((C1_block_traversal demoResearcher demoUser [10, 20] 3).1
      ⟨[⟨"assistant", "Q1"⟩, ⟨"user", "A0"⟩], 0, 10, 1, 1⟩ ⟨none, true⟩ 20
      rfl rfl (by decide)).2.2.2
  · exact (C1_block_traversal demoResearcher demoUser [10, 20] 50).2.2.2.1
      (by decide) (by decide)

/-- C2: every successful run's dialogue is a sequence of
researcher/respondent turn pairs — each appended researcher (`assistant`)
turn is immediately followed by exactly one respondent (`user`) turn —
so all adjacent turns have differing roles (the synthetic opening turn is
never part of the dialogue, so no exception even arises), and the
dialogue grows append-only: every snapshot seen during the run is a
prefix of the final dialogue. -/
theorem C2_role_alternation {Block : Type}
    (researcher : Nat → List Turn → Block → Option ResearcherOutput)
    (user : Nat → List Turn → Block → Option String)
    (blocks : List Block) (fuel : Nat) (d : List Turn)
    (h : (Simulator.simulate_conversation researcher user blocks fuel).1 =
      Simulator.SimOutcome.ok d) :
    (∃ n, d.map Turn.role = rolePattern n) ∧
    List.Chain' (fun t1 t2 : Turn => t1.role ≠ t2.role) d ∧
    ∀ dlg ∈ researcherDialogues
        (Simulator.simulate_conversation researcher user blocks fuel).2,
      dlg <+: d := by
  cases blocks with
  | nil =>
    rw [Simulator.simulate_conversation_nil] at h
    simp at h
  | cons b bs =>
    rw [Simulator.simulate_conversation_cons] at h
    have hpat : ∃ n, d.map Turn.role = rolePattern n := by
      refine Simulator.simLoop_ok_invariant researcher user (b :: bs)
        (fun dd => ∃ n, dd.map Turn.role = rolePattern n) ?_ fuel
        { dialogue := [], block_index := 0, discussion_block := b,
          rCalls := 0, uCalls := 0 } d ⟨0, rfl⟩ h
      rintro dd q a ⟨n, hn⟩
      refine ⟨n + 1, ?_⟩
      rw [← rolePattern_append n]
      simp [hn]
    refine ⟨hpat, ?_, ?_⟩
    · obtain ⟨n, hn⟩ := hpat
      have hc := rolePattern_chain' n
      rw [← hn] at hc
      exact (List.chain'_map Turn.role).mp hc
    · rw [Simulator.simulate_conversation_cons]
      exact Simulator.simLoop_ok_snapshots researcher user (b :: bs) fuel _ d h

/-- C2 witness: the concrete 2-block demo run's dialogue alternates
strictly. -/
theorem C2_witness :
    ((Simulator.simulate_conversation demoResearcher demoUser [10, 20] 50).1 =
      Simulator.SimOutcome.ok [⟨"assistant", "Q1"⟩, ⟨"user", "A0"⟩, ⟨"assistant", "Q2"⟩,
        ⟨"user", "A1"⟩, ⟨"assistant", "Q3"⟩, ⟨"user", "A2"⟩]) ∧
    (∃ n, ([⟨"assistant", "Q1"⟩, ⟨"user", "A0"⟩, ⟨"assistant", "Q2"⟩, ⟨"user", "A1"⟩,
        ⟨"assistant", "Q3"⟩, ⟨"user", "A2"⟩] : List Turn).map Turn.role = rolePattern n) ∧
    List.Chain' (fun t1 t2 : Turn => t1.role ≠ t2.role)
      [⟨"assistant", "Q1"⟩, ⟨"user", "A0"⟩, ⟨"assistant", "Q2"⟩, ⟨"user", "A1"⟩,
       ⟨"assistant", "Q3"⟩, ⟨"user", "A2"⟩] := by
  have h : (Simulator.simulate_conversation demoResearcher demoUser [10, 20] 50).1 =
      Simulator.SimOutcome.ok [⟨"assistant", "Q1"⟩, ⟨"user", "A0"⟩, ⟨"assistant", "Q2"⟩,
        ⟨"user", "A1"⟩, ⟨"assistant", "Q3"⟩, ⟨"user", "A2"⟩] := by decide
  exact ⟨h, (C2_role_alternation demoResearcher demoUser [10, 20] 50 _ h).1,
    (C2_role_alternation demoResearcher demoUser [10, 20] 50 _ h).2.1⟩

/-- C3: every respondent call of every run receives at most the last 4
dialogue turns — the window length is exactly `min (length) 4`, so a
20-turn dialogue yields exactly 4 — while every researcher call receives
the full accumulated dialogue (the synthetic opening turn only when the
dialogue is empty). -/
theorem C3_bounded_memory {Block : Type}
    (researcher : Nat → List Turn → Block → Option ResearcherOutput)
    (user : Nat → List Turn → Block → Option String)
    (blocks : List Block) (fuel : Nat) :
    (∀ i ∈ respondentInputs (Simulator.simulate_conversation researcher user blocks fuel).2,
       i.length ≤ 4) ∧
    (∀ d : List Turn, (Simulator.user_dialogue_window d).length = min d.length 4) ∧
    (∀ d : List Turn, d.length = 20 → (Simulator.user_dialogue_window d).length = 4) ∧
    (∀ bi blk dlg inp,
       Simulator.SimEvent.researcherCall bi blk dlg inp ∈
         (Simulator.simulate_conversation researcher user blocks fuel).2 →
       inp = Simulator.agentInput dlg ∧ (dlg ≠ [] → inp = dlg)) := by
  refine ⟨?_, ?_, ?_, ?_⟩
  · cases blocks with
    | nil =>
      intro i hi
      rw [Simulator.simulate_conversation_nil] at hi
      simp [respondentInputs] at hi
    | cons b bs =>
      intro i hi
      rw [Simulator.simulate_conversation_cons] at hi
      exact Simulator.simLoop_respondent_inputs researcher user (b :: bs) fuel _ i hi
  · exact Simulator.user_dialogue_window_length
  · intro d hd
    rw [Simulator.user_dialogue_window_length, hd]
    decide
  · cases blocks with
    | nil =>
      intro bi blk dlg inp hm
      rw [Simulator.simulate_conversation_nil] at hm
      simp at hm
    | cons b bs =>
      intro bi blk dlg inp hm
      rw [Simulator.simulate_conversation_cons] at hm
      have hin := Simulator.simLoop_researcher_inputs researcher user (b :: bs) fuel _
        bi blk dlg inp hm
      refine ⟨hin, ?_⟩
      intro hne
      rw [hin]
      unfold Simulator.agentInput
      rw [if_neg]
      simp [hne]

/-- C3 witness: a concrete respondent input of the demo run is within
the 4-turn bound, and a concrete 20-turn dialogue windows to exactly 4. -/
theorem C3_witness :
    ([⟨"assistant", "Q1"⟩] : List Turn) ∈
      respondentInputs
        (Simulator.simulate_conversation demoResearcher demoUser [10, 20] 50).2 ∧
    ([⟨"assistant", "Q1"⟩] : List Turn).length ≤ 4 ∧
    (List.replicate 20 (⟨"user", "x"⟩ : Turn)).length = 20 ∧
    (Simulator.user_dialogue_window (List.replicate 20 ⟨"user", "x"⟩)).length = 4 := by
  refine ⟨by decide, ?_, by simp, ?_⟩
  · exact (C3_bounded_memory demoResearcher demoUser [10, 20] 50).1 _ (by decide)
  · exact (C3_bounded_memory demoResearcher demoUser [10, 20] 50).2.2.1 _ (by simp)
